import Mathlib

/-!
Verification development for the presentation layer of the thermography
desktop application (`gui/dialogs/thermo_gui_dialog.py`).

The file shallowly embeds the GUI dialog's state and its event handlers:

* UI controls (sliders, spin boxes, check boxes, radio selectors, buttons,
  the progress bar and the image panels) are fields of `GuiState`;
* the shared `ProcessingConfiguration` aggregate owned by the worker thread
  (`thermo_thread.app`) is the `AppState` structure;
* each Python handler becomes a state transformer `GuiState → GuiState`.

Qt's synchronous signal semantics are modelled explicitly: `setValue` on a
control whose `valueChanged` signal is connected to a handler re-enters that
handler immediately when (and only when) the value actually changes, and the
re-entrant run completes before the caller resumes.  Machine floats are
modelled as rationals (control values, directly copied configuration fields)
and reals (fields obtained through the `pi / 180` degree-to-radian
conversion).
-/

/- ## Basic display types -/

/-- A widget size in pixels (Qt `QSize`). -/
structure QSize where
  width : Nat
  height : Nat
  deriving DecidableEq, Repr

/-- Color layout tag of a pixel buffer. -/
inductive ColorFmt where
  | gray
  | bgr
  | rgb
  deriving DecidableEq, Repr

/-- A frame buffer as received from the worker thread: a numpy array of shape
`(height, width, channels)` together with its color convention. -/
structure Frame where
  height : Nat
  width : Nat
  channels : Nat
  fmt : ColorFmt
  deriving DecidableEq, Repr

/-- What an image panel (a `QLabel`) currently shows: either a placeholder
caption (`setText`) or a painted pixmap (`setPixmap`). -/
inductive PanelContent where
  | text (caption : String)
  | pixmap (img : Frame)
  deriving DecidableEq, Repr

/-- Whether the panel currently shows a caption. -/
def PanelContent.isText : PanelContent → Bool
  | PanelContent.text _ => true
  | PanelContent.pixmap _ => false

/-- An image panel: its current size and its displayed content. -/
structure View where
  size : QSize
  content : PanelContent
  deriving DecidableEq, Repr

/-- `QSize.scaled(target, Qt.KeepAspectRatio)`: the largest size with the
image's aspect ratio that fits inside `target` (Qt's integer arithmetic).
Degenerate images scale to the target itself, as in Qt. -/
def QSize.scaledKeepAspect (img target : QSize) : QSize :=
  if img.width = 0 ∨ img.height = 0 then target
  else
    let rw := target.height * img.width / img.height
    if rw ≤ target.width then ⟨rw, target.height⟩
    else ⟨target.width, target.width * img.height / img.width⟩

/-- `cv2.cvtColor(frame, cv2.COLOR_BGR2RGB)`: reorders the three channels of
a 3-channel buffer; any other channel count is an OpenCV error. -/
def cvtColorBGR2RGB (f : Frame) : Option Frame :=
  if f.channels = 3 then some { f with fmt := ColorFmt.rgb } else none

/-- `cv2.cvtColor(frame, cv2.COLOR_GRAY2RGB)`: expands a single-channel
buffer to three identical channels; any other channel count is an OpenCV
error. -/
def cvtColorGRAY2RGB (f : Frame) : Option Frame :=
  if f.channels = 1 then some { f with channels := 3, fmt := ColorFmt.rgb } else none

/- ## The shared processing configuration (`thermo_thread.app`) -/

/-- `app.preprocessing_parameters`. -/
structure PreprocessingParams where
  image_scaling : Rat
  image_rotation : Real
  gaussian_blur : Rat
  red_threshold : Rat

/-- `app.edge_detection_parameters`. -/
structure EdgeDetectionParams where
  hysteresis_min_thresh : Rat
  hysteresis_max_thresh : Rat
  dilation_steps : Rat

/-- `app.segment_detection_parameters`. -/
structure SegmentDetectionParams where
  d_rho : Rat
  d_theta : Real
  min_num_votes : Rat
  min_line_length : Rat
  max_line_gap : Rat
  extension_pixels : Rat

/-- `app.segment_clustering_parameters`. -/
structure SegmentClusteringParams where
  num_init : Rat
  swipe_clusters : Bool
  num_clusters : Rat
  use_centers : Bool
  use_angles : Bool
  cluster_type : String

/-- `app.cluster_cleaning_parameters`. -/
structure ClusterCleaningParams where
  max_angle_variation_mean : Real
  max_merging_angle : Real
  max_endpoint_distance : Real

/-- `app.rectangle_detection_parameters`. -/
structure RectangleDetectionParams where
  aspect_ratio : Rat
  aspect_ratio_relative_deviation : Rat
  min_area : Rat

/-- The mutable configuration aggregate read by the processing engine, plus
the loaded frame collection (`app.frames`, modelled by its length). -/
structure AppState where
  preprocessing_parameters : PreprocessingParams
  edge_detection_parameters : EdgeDetectionParams
  segment_detection_parameters : SegmentDetectionParams
  segment_clustering_parameters : SegmentClusteringParams
  cluster_cleaning_parameters : ClusterCleaningParams
  rectangle_detection_parameters : RectangleDetectionParams
  should_undistort_image : Bool
  frames : Nat

/-- The source a run is bound to. -/
inductive VideoSource where
  | unbound
  | file (path : String) (startFrame : Rat) (endFrame : Option Rat)
  | webcam (port : Int)

/-- The background worker (`ThermoGuiThread`).  `running` is the QThread
run state (`start`/`terminate`); the two connection counters record how many
times the frame-signal group and the `iteration_signal` have been connected
to the dialog's handlers (Qt connections are cumulative: connecting the same
signal/slot pair again adds a second invocation per emission). -/
structure ThermoThread where
  app : AppState
  is_paused : Bool
  running : Bool
  source : VideoSource
  input_file_name : Option String
  iteration_connections : Nat
  frame_connections : Nat

/-- The whole dialog state: the worker, the run flags, and every UI control
the embedded handlers read or write. -/
structure GuiState where
  thread : ThermoThread
  is_stoppable : Bool
  last_folder_opened : Option String
  window_title : String
  capture : Option Unit
  webcam_port : Option Int
  image_scaling_slider_value : Rat
  image_scaling_slider_enabled : Bool
  image_scaling_label : Rat
  angle_value : Rat
  blur_value : Rat
  temperature_value : Rat
  max_histeresis_value : Rat
  min_histeresis_value : Rat
  dilation_value : Rat
  delta_rho_value : Rat
  delta_theta_value : Rat
  min_votes_value : Rat
  min_length_value : Rat
  max_gap_value : Rat
  extend_segments_value : Rat
  gmm_checked : Bool
  knn_checked : Bool
  num_clusters_value : Rat
  num_init_value : Rat
  num_init_enabled : Bool
  use_angle_checked : Bool
  use_centers_checked : Bool
  swipe_clusters_checked : Bool
  swipe_clusters_enabled : Bool
  max_angle_variation_mean_value : Rat
  max_merging_angle_value : Rat
  max_merging_distance_value : Rat
  expected_ratio_value : Rat
  ratio_max_deviation_value : Rat
  min_area_value : Rat
  undistort_checked : Bool
  video_from_index : Rat
  video_to_index : Rat
  play_video_button_enabled : Bool
  pause_video_button_enabled : Bool
  stop_video_button_enabled : Bool
  global_progress_bar_min : Int
  global_progress_bar_max : Int
  global_progress_bar_value : Int
  video_view : View
  attention_view : View
  canny_edges_view : View
  segment_image_view : View
  rectangle_image_view : View
  module_image_view : View
  class_image_view : View
  module_view_centered : Bool

/- ## Parameter Synchronizer handlers -/

/-- `__update_image_scaling`: `image_scaling = slider.value() * 0.1`, written
into the configuration and echoed in the scaling label. -/
def update_image_scaling (s : GuiState) : GuiState :=
  let image_scaling := s.image_scaling_slider_value * (1 / 10 : Rat)
  { s with
      thread.app.preprocessing_parameters.image_scaling := image_scaling,
      image_scaling_label := image_scaling }

/-- The configuration write of `__update_image_angle`:
`image_rotation = angle_value.value() * np.pi / 180`. -/
noncomputable def update_image_angle_write (s : GuiState) : GuiState :=
  { s with
      thread.app.preprocessing_parameters.image_rotation :=
        (s.angle_value : Real) * Real.pi / 180 }

/-- `__update_blur_value`. -/
def update_blur_value (s : GuiState) : GuiState :=
  { s with thread.app.preprocessing_parameters.gaussian_blur := s.blur_value }

/-- `__update_temperature_value`. -/
def update_temperature_value (s : GuiState) : GuiState :=
  { s with thread.app.preprocessing_parameters.red_threshold := s.temperature_value }

/-- One signal-free pass of `__update_preprocessing_params`: the four
sub-handlers in source order, with no `setValue` side channel.  This is the
behaviour of the handler whenever the angle control does not read 360, in
particular during the re-entrant run triggered by `angle_value.setValue(0)`
(which leaves the control at 0). -/
noncomputable def update_preprocessing_core (s : GuiState) : GuiState :=
  update_temperature_value (update_blur_value (update_image_angle_write
    (update_image_scaling s)))

/-- `__update_preprocessing_params` with Qt signal semantics: after writing
`angle * pi / 180`, an angle reading of 360 triggers `angle_value.setValue(0)`;
the value changes, so `valueChanged` synchronously re-enters
`__update_preprocessing_params` (the only slot connected to it), which now
sees angle 0 and performs a plain pass; the outer invocation then finishes
with its blur and temperature writes. -/
noncomputable def update_preprocessing_params (s : GuiState) : GuiState :=
  let s1 := update_image_angle_write (update_image_scaling s)
  if s1.angle_value = 360 then
    let s2 := update_preprocessing_core { s1 with angle_value := 0 }
    update_temperature_value (update_blur_value s2)
  else
    update_temperature_value (update_blur_value s1)

/-- One signal-free pass of `__update_histeresis_params`: clamp the max
threshold to `min + 1` when `max <= min`, echo it to the max control, and
write both thresholds.  This is the behaviour whenever the echoed value
equals the control's current value (so `setValue` emits no signal). -/
def update_histeresis_core (s : GuiState) : GuiState :=
  let min_value := s.min_histeresis_value
  let max_value :=
    if s.max_histeresis_value ≤ min_value then min_value + 1
    else s.max_histeresis_value
  { s with
      max_histeresis_value := max_value,
      thread.app.edge_detection_parameters.hysteresis_max_thresh := max_value,
      thread.app.edge_detection_parameters.hysteresis_min_thresh := min_value }

/-- `__update_histeresis_params` with Qt signal semantics:
`max_histeresis_value.setValue(max_value)` re-enters the handler when the
clamped value differs from the control's current value; the re-entrant run
sees `max = min + 1 > min` and echoes the unchanged value (no further
signal), after which the outer invocation performs its two configuration
writes. -/
def update_histeresis_params (s : GuiState) : GuiState :=
  let min_value := s.min_histeresis_value
  let max_value :=
    if s.max_histeresis_value ≤ min_value then min_value + 1
    else s.max_histeresis_value
  let s1 :=
    if max_value = s.max_histeresis_value then s
    else update_histeresis_core { s with max_histeresis_value := max_value }
  { s1 with
      thread.app.edge_detection_parameters.hysteresis_max_thresh := max_value,
      thread.app.edge_detection_parameters.hysteresis_min_thresh := min_value }

/-- `__update_dilation_steps`. -/
def update_dilation_steps (s : GuiState) : GuiState :=
  { s with thread.app.edge_detection_parameters.dilation_steps := s.dilation_value }

/-- `__update_image_distortion`. -/
def update_image_distortion (s : GuiState) : GuiState :=
  { s with thread.app.should_undistort_image := s.undistort_checked }

/-- `__update_edge_params`: the segment-detection fields; `d_theta` is
converted degrees to radians, the rest are copied verbatim. -/
noncomputable def update_edge_params (s : GuiState) : GuiState :=
  { s with
      thread.app.segment_detection_parameters.d_rho := s.delta_rho_value,
      thread.app.segment_detection_parameters.d_theta :=
        Real.pi / 180 * (s.delta_theta_value : Real),
      thread.app.segment_detection_parameters.min_num_votes := s.min_votes_value,
      thread.app.segment_detection_parameters.min_line_length := s.min_length_value,
      thread.app.segment_detection_parameters.max_line_gap := s.max_gap_value,
      thread.app.segment_detection_parameters.extension_pixels := s.extend_segments_value }

/-- `__update_clustering_params`: the shared fields are written
unconditionally; then the checked selector (knn first, gmm on the `elif`
branch) picks `cluster_type` and toggles which of the swipe / init-count
controls is editable. -/
def update_clustering_params (s : GuiState) : GuiState :=
  let s1 :=
    { s with
        thread.app.segment_clustering_parameters.num_init := s.num_init_value,
        thread.app.segment_clustering_parameters.swipe_clusters := s.swipe_clusters_checked,
        thread.app.segment_clustering_parameters.num_clusters := s.num_clusters_value,
        thread.app.segment_clustering_parameters.use_centers := s.use_centers_checked,
        thread.app.segment_clustering_parameters.use_angles := s.use_angle_checked }
  if s.knn_checked then
    { s1 with
        thread.app.segment_clustering_parameters.cluster_type := "knn",
        swipe_clusters_enabled := false,
        num_init_enabled := true }
  else if s.gmm_checked then
    { s1 with
        thread.app.segment_clustering_parameters.cluster_type := "gmm",
        swipe_clusters_enabled := true,
        num_init_enabled := false }
  else s1

/-- `__update_cluster_cleaning_params`: all three fields are written as
`np.pi / 180 * value`, including `max_endpoint_distance`, which is a pixel
distance rather than an angle. -/
noncomputable def update_cluster_cleaning_params (s : GuiState) : GuiState :=
  { s with
      thread.app.cluster_cleaning_parameters.max_angle_variation_mean :=
        Real.pi / 180 * (s.max_angle_variation_mean_value : Real),
      thread.app.cluster_cleaning_parameters.max_merging_angle :=
        Real.pi / 180 * (s.max_merging_angle_value : Real),
      thread.app.cluster_cleaning_parameters.max_endpoint_distance :=
        Real.pi / 180 * (s.max_merging_distance_value : Real) }

/-- `__update_rectangle_detection_params`. -/
def update_rectangle_detection_params (s : GuiState) : GuiState :=
  { s with
      thread.app.rectangle_detection_parameters.aspect_ratio := s.expected_ratio_value,
      thread.app.rectangle_detection_parameters.aspect_ratio_relative_deviation :=
        s.ratio_max_deviation_value,
      thread.app.rectangle_detection_parameters.min_area := s.min_area_value }

/- ## Frame Pipeline Controller operations -/

/-- `__video_finished(finished)`: the button-enable pattern applied both when
a run ends and (inverted) while one is active. -/
def video_finished (s : GuiState) (finished : Bool) : GuiState :=
  { s with
      play_video_button_enabled := finished,
      pause_video_button_enabled := !finished,
      stop_video_button_enabled := !finished,
      image_scaling_slider_enabled := finished }

/-- `__play_all_frames`: clear the pause flag, latch the scaling slider off,
push the current scaling, echo the label from the configuration, flip the
play/pause buttons, enable stop only for stoppable runs, and start the
worker (`QThread.start`). -/
def play_all_frames (s : GuiState) : GuiState :=
  let s1 := update_image_scaling { s with
    thread.is_paused := false,
    image_scaling_slider_enabled := false }
  let s2 := { s1 with
    image_scaling_label := s1.thread.app.preprocessing_parameters.image_scaling,
    play_video_button_enabled := false,
    pause_video_button_enabled := true }
  let s3 := if s2.is_stoppable then { s2 with stop_video_button_enabled := true } else s2
  { s3 with thread.running := true }

/-- `__stop_all_frames`: unconditionally terminate the worker
(`QThread.terminate`, modelled as clearing `running`) and apply the finished
button pattern.  The handler performs no stoppability check. -/
def stop_all_frames (s : GuiState) : GuiState :=
  video_finished { s with thread.running := false } true

/-- `__pause_all_frames`. -/
def pause_all_frames (s : GuiState) : GuiState :=
  let s1 := { s with thread.is_paused := true, play_video_button_enabled := true }
  let s2 := if s1.is_stoppable then { s1 with stop_video_button_enabled := true } else s1
  { s2 with pause_video_button_enabled := false }

/-- `__update_global_progress_bar(frame_index)`. -/
def update_global_progress_bar (frame_index : Int) (s : GuiState) : GuiState :=
  { s with global_progress_bar_value := frame_index }

/-- Apply a handler once per established Qt connection. -/
def applyHandlerTimes (f : GuiState → GuiState) : Nat → GuiState → GuiState
  | 0, s => s
  | n + 1, s => applyHandlerTimes f n (f s)

/-- Emission of the worker's `iteration_signal`, under Qt's connection
semantics: every `connect` of a signal/slot pair adds one invocation of the
slot per emission, so the progress handler runs once per recorded
connection.  Returns the state after delivery together with the number of
handler invocations. -/
def emit_iteration_signal (frame_index : Int) (s : GuiState) : GuiState × Nat :=
  (applyHandlerTimes (update_global_progress_bar frame_index)
      s.thread.iteration_connections s,
   s.thread.iteration_connections)

/-- `os.path.dirname` for POSIX-style paths: everything before the last
separator. -/
def dirname (p : String) : String :=
  (p.dropRightWhile (fun c => c ≠ '/')).dropRight 1

/-- Modelled from the spec: `ThermoGuiThread.load_video(start_frame,
end_frame)` (the thread class is not part of the reviewed source) binds the
file source and frame range to the worker and populates `app.frames` from
the video; the frame count is an input of the environment. -/
def thread_load_video (path : String) (startFrame : Rat) (endFrame : Option Rat)
    (frameCount : Nat) (t : ThermoThread) : ThermoThread :=
  { t with
      source := VideoSource.file path startFrame endFrame,
      app.frames := frameCount }

/-- `__load_video_from_file`, parameterized by the picker's result (`""`
means cancelled) and by the frame count of the selected video.  A cancelled
selection returns immediately; otherwise the source is bound, the run marked
stoppable, the progress bar re-bounded, and `iteration_signal` is connected
(one more time) to the progress handler. -/
def load_video_from_file (picked : String) (frameCount : Nat) (s : GuiState) : GuiState :=
  if picked = "" then s
  else
    let endFrame : Option Rat :=
      if s.video_to_index = -1 then none else some s.video_to_index
    { s with
        last_folder_opened := some (dirname picked),
        thread := thread_load_video picked s.video_from_index endFrame frameCount
          { s.thread with
              input_file_name := some picked,
              iteration_connections := s.thread.iteration_connections + 1 },
        is_stoppable := true,
        window_title := "Thermography: " ++ picked,
        global_progress_bar_min := 0,
        global_progress_bar_max := (frameCount : Int) - 1 }

/-- Modelled from the spec: `ThermoGuiThread.use_webcam(port)` (the thread
class is not part of the reviewed source) binds a live-capture source to the
worker. -/
def thread_use_webcam (port : Int) (t : ThermoThread) : ThermoThread :=
  { t with source := VideoSource.webcam port }

/-- `__set_webcam_port(port)`: bind the webcam source, mark the run not
stoppable, retitle the window, and immediately start playback. -/
def set_webcam_port (port : Int) (s : GuiState) : GuiState :=
  play_all_frames
    { s with
        webcam_port := some port,
        thread := thread_use_webcam port s.thread,
        is_stoppable := false,
        window_title := "Thermography: Webcam" }

/-- `__connect_thermo_thread`: connect the seven frame signals and the
finish signal of the current worker to the dialog's display handlers (one
more cumulative connection of the frame-signal group). -/
def connect_thermo_thread (s : GuiState) : GuiState :=
  { s with thread.frame_connections := s.thread.frame_connections + 1 }

/-- Modelled from the spec: a freshly constructed `ThermoGuiThread` (the
thread class is not part of the reviewed source) is an idle worker — not
running, not paused, no bound source, no connections — holding a
default-constructed processing configuration. -/
def freshThread (defaultApp : AppState) : ThermoThread :=
  { app := defaultApp,
    is_paused := false,
    running := false,
    source := VideoSource.unbound,
    input_file_name := none,
    iteration_connections := 0,
    frame_connections := 0 }

/-- `image_scaling_slider.setValue(v)` with Qt signal semantics: if the
value changes, `valueChanged` fires and runs its two connected slots in
connection order (`__update_image_scaling`, then
`__update_preprocessing_params`). -/
noncomputable def image_scaling_slider_set_value (v : Rat) (s : GuiState) : GuiState :=
  if s.image_scaling_slider_value = v then s
  else update_preprocessing_params
    (update_image_scaling { s with image_scaling_slider_value := v })

/-- `__reset_app`, parameterized by the fresh worker's default
configuration: terminate and replace the worker, reset the scaling slider
(whose signal re-runs the preprocessing synchronizer against the new
worker), apply the finished button pattern, zero the progress bar, restore
the placeholder captions of the five panels the handler touches, clear the
capture bookkeeping, retitle the window, and re-connect the frame signals to
the new worker. -/
noncomputable def reset_app (defaultApp : AppState) (s : GuiState) : GuiState :=
  let s1 := { s with thread := freshThread defaultApp }
  let s2 := image_scaling_slider_set_value 10 s1
  let s3 := video_finished s2 true
  let s4 := { s3 with
      global_progress_bar_value := 0,
      video_view.content := PanelContent.text "Input Image",
      canny_edges_view.content := PanelContent.text "Edges Image",
      segment_image_view.content := PanelContent.text "Segment Image",
      rectangle_image_view.content := PanelContent.text "Rectangle Image",
      module_image_view.content := PanelContent.text "Module Map",
      module_view_centered := true,
      capture := none,
      webcam_port := none,
      window_title := "Thermography" }
  connect_thermo_thread s4

/- ## Frame display handlers -/

/-- The displayable image produced from a converted frame by
`QImage(...).scaled(view_size, Qt.KeepAspectRatio)`. -/
def scaledImage (f : Frame) (target : QSize) : Frame :=
  let sz := QSize.scaledKeepAspect ⟨f.width, f.height⟩ target
  { f with width := sz.width, height := sz.height }

/-- `__display_image`: BGR→RGB, scale to the input panel's size keeping the
aspect ratio, paint the input panel. -/
def display_image (s : GuiState) (frame : Frame) : Option GuiState :=
  (cvtColorBGR2RGB frame).map fun f =>
    { s with video_view.content :=
        PanelContent.pixmap (scaledImage f s.video_view.size) }

/-- `__display_attention`: BGR→RGB, scale to `video_view`'s size (not the
attention panel's own size), paint the attention panel. -/
def display_attention (s : GuiState) (frame : Frame) : Option GuiState :=
  (cvtColorBGR2RGB frame).map fun f =>
    { s with attention_view.content :=
        PanelContent.pixmap (scaledImage f s.video_view.size) }

/-- `__display_canny_edges`: GRAY→RGB (grayscale expanded to three
channels), scale to `video_view`'s size, paint the edges panel. -/
def display_canny_edges (s : GuiState) (frame : Frame) : Option GuiState :=
  (cvtColorGRAY2RGB frame).map fun f =>
    { s with canny_edges_view.content :=
        PanelContent.pixmap (scaledImage f s.video_view.size) }

/-- `__display_segment_image`: BGR→RGB, scale to `video_view`'s size, paint
the segment panel. -/
def display_segment_image (s : GuiState) (frame : Frame) : Option GuiState :=
  (cvtColorBGR2RGB frame).map fun f =>
    { s with segment_image_view.content :=
        PanelContent.pixmap (scaledImage f s.video_view.size) }

/-- `__display_rectangle_image`: BGR→RGB, scale to `video_view`'s size,
paint the rectangle panel. -/
def display_rectangle_image (s : GuiState) (frame : Frame) : Option GuiState :=
  (cvtColorBGR2RGB frame).map fun f =>
    { s with rectangle_image_view.content :=
        PanelContent.pixmap (scaledImage f s.video_view.size) }

/-- `__display_module_map_image`: BGR→RGB, scale to `video_view`'s size,
paint the module-map panel. -/
def display_module_map_image (s : GuiState) (frame : Frame) : Option GuiState :=
  (cvtColorBGR2RGB frame).map fun f =>
    { s with module_image_view.content :=
        PanelContent.pixmap (scaledImage f s.video_view.size) }

/-- `__display_classes_image`: BGR→RGB, resize the class panel to the native
buffer dimensions (`__resize_video_view`: `setFixedSize(shape[1], shape[0])`),
then paint the unscaled image. -/
def display_classes_image (s : GuiState) (frame : Frame) : Option GuiState :=
  (cvtColorBGR2RGB frame).map fun f =>
    { s with class_image_view :=
        { size := ⟨f.width, f.height⟩, content := PanelContent.pixmap f } }

/- ## Concrete states for witnesses and counterexamples -/

/-- A concrete panel used by the concrete states below. -/
def baseView : View :=
  { size := ⟨100, 100⟩, content := PanelContent.text "placeholder" }

/-- A concrete processing configuration (all fields zeroed / defaulted). -/
noncomputable def baseApp : AppState :=
  { preprocessing_parameters :=
      { image_scaling := 1, image_rotation := 0, gaussian_blur := 0, red_threshold := 0 },
    edge_detection_parameters :=
      { hysteresis_min_thresh := 0, hysteresis_max_thresh := 0, dilation_steps := 0 },
    segment_detection_parameters :=
      { d_rho := 0, d_theta := 0, min_num_votes := 0, min_line_length := 0,
        max_line_gap := 0, extension_pixels := 0 },
    segment_clustering_parameters :=
      { num_init := 0, swipe_clusters := false, num_clusters := 0,
        use_centers := false, use_angles := false, cluster_type := "gmm" },
    cluster_cleaning_parameters :=
      { max_angle_variation_mean := 0, max_merging_angle := 0, max_endpoint_distance := 0 },
    rectangle_detection_parameters :=
      { aspect_ratio := 0, aspect_ratio_relative_deviation := 0, min_area := 0 },
    should_undistort_image := false,
    frames := 0 }

/-- A concrete worker. -/
noncomputable def baseThread : ThermoThread :=
  { app := baseApp,
    is_paused := false,
    running := false,
    source := VideoSource.unbound,
    input_file_name := none,
    iteration_connections := 0,
    frame_connections := 1 }

/-- A concrete dialog state used to instantiate the theorems below. -/
noncomputable def baseGui : GuiState :=
  { thread := baseThread,
    is_stoppable := true,
    last_folder_opened := none,
    window_title := "Thermography",
    capture := none,
    webcam_port := none,
    image_scaling_slider_value := 10,
    image_scaling_slider_enabled := true,
    image_scaling_label := 1,
    angle_value := 0,
    blur_value := 3,
    temperature_value := 120,
    max_histeresis_value := 140,
    min_histeresis_value := 70,
    dilation_value := 2,
    delta_rho_value := 1,
    delta_theta_value := 1,
    min_votes_value := 60,
    min_length_value := 50,
    max_gap_value := 150,
    extend_segments_value := 10,
    gmm_checked := true,
    knn_checked := false,
    num_clusters_value := 2,
    num_init_value := 10,
    num_init_enabled := false,
    use_angle_checked := true,
    use_centers_checked := true,
    swipe_clusters_checked := false,
    swipe_clusters_enabled := true,
    max_angle_variation_mean_value := 20,
    max_merging_angle_value := 10,
    max_merging_distance_value := 10,
    expected_ratio_value := 3 / 2,
    ratio_max_deviation_value := 35 / 100,
    min_area_value := 1000,
    undistort_checked := false,
    video_from_index := 0,
    video_to_index := -1,
    play_video_button_enabled := true,
    pause_video_button_enabled := false,
    stop_video_button_enabled := false,
    global_progress_bar_min := 0,
    global_progress_bar_max := 0,
    global_progress_bar_value := 0,
    video_view := baseView,
    attention_view := baseView,
    canny_edges_view := baseView,
    segment_image_view := baseView,
    rectangle_image_view := baseView,
    module_image_view := baseView,
    class_image_view := baseView,
    module_view_centered := true }

/- ## Claim theorems -/

/-- C1: for every (min, max) pair read by the hysteresis update handler,
if `max <= min` the stored max threshold becomes `min + 1`, the stored min
threshold is `min`, and the UI max control is set to `min + 1`; if
`max > min` both thresholds are stored as submitted and the max control is
unchanged. -/
theorem C1_hysteresis_clamp (s : GuiState) :
    (s.max_histeresis_value ≤ s.min_histeresis_value →
      (update_histeresis_params s).thread.app.edge_detection_parameters.hysteresis_max_thresh
          = s.min_histeresis_value + 1
      ∧ (update_histeresis_params s).thread.app.edge_detection_parameters.hysteresis_min_thresh
          = s.min_histeresis_value
      ∧ (update_histeresis_params s).max_histeresis_value = s.min_histeresis_value + 1)
    ∧ (s.min_histeresis_value < s.max_histeresis_value →
      (update_histeresis_params s).thread.app.edge_detection_parameters.hysteresis_max_thresh
          = s.max_histeresis_value
      ∧ (update_histeresis_params s).thread.app.edge_detection_parameters.hysteresis_min_thresh
          = s.min_histeresis_value
      ∧ (update_histeresis_params s).max_histeresis_value = s.max_histeresis_value) := by
  unfold update_histeresis_params update_histeresis_core
  constructor
  · intro h
    simp only [if_pos h]
    have hne : ¬ (s.min_histeresis_value + 1 = s.max_histeresis_value) := by
      intro hcontra
      have : s.min_histeresis_value + 1 ≤ s.min_histeresis_value := hcontra ▸ h
      linarith
    simp [hne]
  · intro h
    have h' : ¬ s.max_histeresis_value ≤ s.min_histeresis_value := not_le.mpr h
    simp [h']

/-- C1 witness: the clamped branch at min = 70, max = 60, and the untouched
branch at min = 70, max = 140, on a concrete dialog state. -/
theorem C1_hysteresis_clamp_witness :
    ((60 : Rat) ≤ 70
      ∧ (update_histeresis_params { baseGui with max_histeresis_value := 60 }
          ).thread.app.edge_detection_parameters.hysteresis_max_thresh = 71)
    ∧ ((70 : Rat) < 140
      ∧ (update_histeresis_params baseGui
          ).thread.app.edge_detection_parameters.hysteresis_max_thresh = 140) := by
  have h1 := (C1_hysteresis_clamp { baseGui with max_histeresis_value := 60 }).1
    (by norm_num [baseGui])
  have h2 := (C1_hysteresis_clamp baseGui).2 (by norm_num [baseGui])
  refine ⟨⟨by norm_num, ?_⟩, ⟨by norm_num, ?_⟩⟩
  · rw [h1.1]; norm_num [baseGui]
  · rw [h2.1]; norm_num [baseGui]

/-- A non-stoppable (webcam-style) state with an active run, used to refute
the claim that stop is a no-op there. -/
noncomputable def stopCounterGui : GuiState :=
  { baseGui with
      is_stoppable := false,
      thread.running := true,
      pause_video_button_enabled := true,
      stop_video_button_enabled := true }

/-- C2 counterexample: with `is_stoppable = false` and a running worker, the
stop handler is not a no-op — it changes the state, terminating the worker
and flipping the pause button. -/
theorem C2_stop_not_noop_counterexample :
    stopCounterGui.is_stoppable = false
    ∧ stopCounterGui.thread.running = true
    ∧ (stop_all_frames stopCounterGui).thread.running = false
    ∧ stop_all_frames stopCounterGui ≠ stopCounterGui := by
  refine ⟨rfl, rfl, rfl, ?_⟩
  intro h
  have hpause := congrArg (fun t => t.pause_video_button_enabled) h
  simp [stop_all_frames, video_finished, stopCounterGui] at hpause

/-- C2 amended: the stop handler performs no stoppability check — for every
state, stoppable or not, it terminates the worker and applies the finished
button pattern (start enabled, pause and stop disabled, scaling slider
enabled), leaving everything else unchanged. -/
theorem C2_stop_always_terminates (s : GuiState) :
    stop_all_frames s =
      { s with
          thread.running := false,
          play_video_button_enabled := true,
          pause_video_button_enabled := false,
          stop_video_button_enabled := false,
          image_scaling_slider_enabled := true } := by
  rfl

/-- A state whose attention panel shows a painted frame, used to refute the
claim that reset restores all seven panel captions. -/
noncomputable def resetCounterGui : GuiState :=
  { baseGui with
      attention_view.content := PanelContent.pixmap ⟨4, 4, 3, ColorFmt.bgr⟩,
      class_image_view.content := PanelContent.pixmap ⟨4, 4, 3, ColorFmt.bgr⟩ }

/-- C3 counterexample: after a reset, the attention panel and the
classification panel still show the pixmaps they showed before — the reset
handler never writes a placeholder caption into these two of the seven
panels. -/
theorem C3_reset_skips_two_panels_counterexample :
    (reset_app baseApp resetCounterGui).attention_view.content
        = PanelContent.pixmap ⟨4, 4, 3, ColorFmt.bgr⟩
    ∧ (reset_app baseApp resetCounterGui).class_image_view.content
        = PanelContent.pixmap ⟨4, 4, 3, ColorFmt.bgr⟩
    ∧ ((reset_app baseApp resetCounterGui).attention_view.content).isText = false
    ∧ ((reset_app baseApp resetCounterGui).class_image_view.content).isText = false := by
  refine ⟨rfl, rfl, rfl, rfl⟩

/-- C3 amended: from every prior state, reset returns the Controller to an
idle fresh worker (not running, not paused, unbound source, the frame-event
signals freshly connected exactly once and the progress signal not
connected), sets the progress indicator to 0, and sets the five panels the
handler touches (input, edges, segments, rectangles, module map) to their
placeholder captions, leaving the attention and classification panels
unchanged. -/
theorem C3_reset_restores_idle (d : AppState) (s : GuiState) :
    (reset_app d s).thread.running = false
    ∧ (reset_app d s).thread.is_paused = false
    ∧ (reset_app d s).thread.source = VideoSource.unbound
    ∧ (reset_app d s).thread.frame_connections = 1
    ∧ (reset_app d s).thread.iteration_connections = 0
    ∧ (reset_app d s).global_progress_bar_value = 0
    ∧ (reset_app d s).video_view.content = PanelContent.text "Input Image"
    ∧ (reset_app d s).canny_edges_view.content = PanelContent.text "Edges Image"
    ∧ (reset_app d s).segment_image_view.content = PanelContent.text "Segment Image"
    ∧ (reset_app d s).rectangle_image_view.content = PanelContent.text "Rectangle Image"
    ∧ (reset_app d s).module_image_view.content = PanelContent.text "Module Map"
    ∧ (reset_app d s).attention_view = s.attention_view
    ∧ (reset_app d s).class_image_view = s.class_image_view := by
  simp only [reset_app, connect_thermo_thread, video_finished,
    image_scaling_slider_set_value, update_preprocessing_params,
    update_preprocessing_core, update_image_scaling, update_image_angle_write,
    update_blur_value, update_temperature_value, freshThread]
  split_ifs <;> simp

/-- C4: for every dialog state, the preprocessing update stores
`angle * pi / 180` as the configured rotation and leaves the angle control
untouched, except when the control reads 360, in which case the stored
rotation is 0 and the control is reset to 0. -/
theorem C4_rotation_degrees_to_radians (s : GuiState) :
    (s.angle_value ≠ 360 →
      (update_preprocessing_params s).thread.app.preprocessing_parameters.image_rotation
          = (s.angle_value : Real) * Real.pi / 180
      ∧ (update_preprocessing_params s).angle_value = s.angle_value)
    ∧ (s.angle_value = 360 →
      (update_preprocessing_params s).thread.app.preprocessing_parameters.image_rotation = 0
      ∧ (update_preprocessing_params s).angle_value = 0) := by
  unfold update_preprocessing_params update_preprocessing_core update_image_scaling
    update_image_angle_write update_blur_value update_temperature_value
  constructor
  · intro h
    simp [h]
  · intro h
    simp [h]

/-- C4 witness: at a concrete state with the angle control at 360, the
stored rotation is 0 and the control is reset to 0; at a concrete state with
the control at 90, the stored rotation is `90 * pi / 180` and the control
keeps its value. -/
theorem C4_rotation_degrees_to_radians_witness :
    ((90 : Rat) ≠ 360
      ∧ (update_preprocessing_params { baseGui with angle_value := 90 }
          ).thread.app.preprocessing_parameters.image_rotation = 90 * Real.pi / 180
      ∧ (update_preprocessing_params { baseGui with angle_value := 90 }).angle_value = 90)
    ∧ ((360 : Rat) = 360
      ∧ (update_preprocessing_params { baseGui with angle_value := 360 }
          ).thread.app.preprocessing_parameters.image_rotation = 0
      ∧ (update_preprocessing_params { baseGui with angle_value := 360 }).angle_value = 0) := by
  have h1 := (C4_rotation_degrees_to_radians { baseGui with angle_value := 90 }).1
    (by norm_num)
  have h2 := (C4_rotation_degrees_to_radians { baseGui with angle_value := 360 }).2 rfl
  refine ⟨⟨by norm_num, ?_, ?_⟩, ⟨rfl, h2.1, h2.2⟩⟩
  · rw [h1.1]; norm_num
  · rw [h1.2]

/-- C5: the cluster-cleaning handler converts the two angle fields by
`pi / 180` as the claim says, but applies the same conversion to the merge
distance instead of writing it verbatim: for every state the stored
`max_endpoint_distance` is `pi / 180 * value`, and at the concrete input 180
the stored value is `pi` itself rather than 180.  This contradicts the
claim's (sane) reading of the field as a plain pixel distance: the code line
is a copy-paste slip of the angle conversion. -/
theorem C5_merge_distance_also_converted (s : GuiState) :
    ((update_cluster_cleaning_params s
        ).thread.app.cluster_cleaning_parameters.max_angle_variation_mean
          = Real.pi / 180 * (s.max_angle_variation_mean_value : Real)
      ∧ (update_cluster_cleaning_params s
        ).thread.app.cluster_cleaning_parameters.max_merging_angle
          = Real.pi / 180 * (s.max_merging_angle_value : Real)
      ∧ (update_cluster_cleaning_params s
        ).thread.app.cluster_cleaning_parameters.max_endpoint_distance
          = Real.pi / 180 * (s.max_merging_distance_value : Real))
    ∧ ((update_cluster_cleaning_params
          { baseGui with max_merging_distance_value := 180 }
        ).thread.app.cluster_cleaning_parameters.max_endpoint_distance = Real.pi
      ∧ Real.pi ≠ 180) := by
  refine ⟨⟨rfl, rfl, rfl⟩, ?_, ?_⟩
  · show Real.pi / 180 * ((180 : Rat) : Real) = Real.pi
    push_cast
    field_simp
  · intro hc
    have h := Real.pi_lt_d2
    rw [hc] at h
    norm_num at h

/-- C6: assuming the radio-group invariant that the knn and gmm selectors
are never both checked (the mutual exclusion itself is enforced by the
widget-design module, which is outside the reviewed source and modelled
from the spec's words), the clustering update stores `cluster_type = "knn"`
with the swipe control disabled and the init-count control enabled when knn
is selected, the exact inverse when gmm is selected, and it preserves the
invariant. -/
theorem C6_clustering_selector_gating (s : GuiState)
    (h : ¬(s.knn_checked = true ∧ s.gmm_checked = true)) :
    (s.knn_checked = true →
      (update_clustering_params s
          ).thread.app.segment_clustering_parameters.cluster_type = "knn"
      ∧ (update_clustering_params s).swipe_clusters_enabled = false
      ∧ (update_clustering_params s).num_init_enabled = true)
    ∧ (s.gmm_checked = true →
      (update_clustering_params s
          ).thread.app.segment_clustering_parameters.cluster_type = "gmm"
      ∧ (update_clustering_params s).swipe_clusters_enabled = true
      ∧ (update_clustering_params s).num_init_enabled = false)
    ∧ ¬((update_clustering_params s).knn_checked = true
        ∧ (update_clustering_params s).gmm_checked = true) := by
  rcases hknn : s.knn_checked <;> rcases hgmm : s.gmm_checked <;>
    simp_all [update_clustering_params]

/-- C6 witness: with knn checked and gmm unchecked on a concrete state, the
stored algorithm is knn, the swipe control ends disabled and the init-count
control enabled, and the selectors are not both checked afterwards. -/
theorem C6_clustering_selector_gating_witness :
    (¬(({ baseGui with knn_checked := true, gmm_checked := false } : GuiState).knn_checked = true
        ∧ ({ baseGui with knn_checked := true, gmm_checked := false } : GuiState).gmm_checked = true))
    ∧ (update_clustering_params { baseGui with knn_checked := true, gmm_checked := false }
        ).thread.app.segment_clustering_parameters.cluster_type = "knn"
    ∧ (update_clustering_params { baseGui with knn_checked := true, gmm_checked := false }
        ).swipe_clusters_enabled = false
    ∧ (update_clustering_params { baseGui with knn_checked := true, gmm_checked := false }
        ).num_init_enabled = true := by
  have h := C6_clustering_selector_gating
    { baseGui with knn_checked := true, gmm_checked := false } (by simp)
  exact ⟨by simp, (h.1 rfl).1, (h.1 rfl).2.1, (h.1 rfl).2.2⟩

/-- A state whose attention panel is narrower than the input panel, making
the scaling target observable. -/
noncomputable def c7Gui : GuiState :=
  { baseGui with
      attention_view := { size := ⟨50, 100⟩, content := PanelContent.text "placeholder" } }

/-- C7 counterexample: a 10 by 10 frame delivered to the attention handler
is painted at 100 by 100 — the aspect-fit of the frame into the input
panel's 100 by 100 size — and not at 50 by 50, the aspect-fit into the
attention panel's own 50 by 100 size: the handlers scale to `video_view`'s
size, not to their own destination panel's. -/
theorem C7_scaled_to_input_panel_counterexample :
    (display_attention c7Gui ⟨10, 10, 3, ColorFmt.bgr⟩).map (fun t => t.attention_view.content)
        = some (PanelContent.pixmap ⟨100, 100, 3, ColorFmt.rgb⟩)
    ∧ QSize.scaledKeepAspect ⟨10, 10⟩ c7Gui.attention_view.size = ⟨50, 50⟩
    ∧ (PanelContent.pixmap ⟨100, 100, 3, ColorFmt.rgb⟩ : PanelContent)
        ≠ PanelContent.pixmap ⟨50, 50, 3, ColorFmt.rgb⟩ := by
  exact ⟨rfl, rfl, by decide⟩

/-- C7 amended: edge-map frames are expanded from grayscale to 3 channels
and every other kind is converted from BGR to RGB; every kind except the
classification map is scaled to fit the input panel's (`video_view`'s)
current size preserving aspect ratio and painted into its own panel, whose
size is unchanged; the classification map instead resizes its panel to the
native buffer dimensions and paints unscaled. -/
theorem C7_display_conversion_and_scaling (s : GuiState) (f : Frame) :
    (f.channels = 1 →
      display_canny_edges s f = some { s with
        canny_edges_view.content := PanelContent.pixmap
          (scaledImage ⟨f.height, f.width, 3, ColorFmt.rgb⟩ s.video_view.size) })
    ∧ (f.channels = 3 →
      display_image s f = some { s with
        video_view.content := PanelContent.pixmap
          (scaledImage ⟨f.height, f.width, 3, ColorFmt.rgb⟩ s.video_view.size) }
      ∧ display_attention s f = some { s with
        attention_view.content := PanelContent.pixmap
          (scaledImage ⟨f.height, f.width, 3, ColorFmt.rgb⟩ s.video_view.size) }
      ∧ display_segment_image s f = some { s with
        segment_image_view.content := PanelContent.pixmap
          (scaledImage ⟨f.height, f.width, 3, ColorFmt.rgb⟩ s.video_view.size) }
      ∧ display_rectangle_image s f = some { s with
        rectangle_image_view.content := PanelContent.pixmap
          (scaledImage ⟨f.height, f.width, 3, ColorFmt.rgb⟩ s.video_view.size) }
      ∧ display_module_map_image s f = some { s with
        module_image_view.content := PanelContent.pixmap
          (scaledImage ⟨f.height, f.width, 3, ColorFmt.rgb⟩ s.video_view.size) }
      ∧ display_classes_image s f = some { s with
        class_image_view := {
          size := ⟨f.width, f.height⟩,
          content := PanelContent.pixmap ⟨f.height, f.width, 3, ColorFmt.rgb⟩ } }) := by
  constructor
  · intro h
    simp [display_canny_edges, cvtColorGRAY2RGB, h]
  · intro h
    refine ⟨?_, ?_, ?_, ?_, ?_, ?_⟩ <;>
      simp [display_image, display_attention, display_segment_image,
        display_rectangle_image, display_module_map_image, display_classes_image,
        cvtColorBGR2RGB, h]

/-- C7 witness: the edge handler on a concrete 1-channel frame and the
classification handler on a concrete 3-channel frame, on a concrete
state. -/
theorem C7_display_conversion_and_scaling_witness :
    ((⟨8, 6, 1, ColorFmt.gray⟩ : Frame).channels = 1
      ∧ display_canny_edges baseGui ⟨8, 6, 1, ColorFmt.gray⟩ = some { baseGui with
          canny_edges_view.content := PanelContent.pixmap
            (scaledImage ⟨8, 6, 3, ColorFmt.rgb⟩ baseGui.video_view.size) })
    ∧ ((⟨8, 6, 3, ColorFmt.bgr⟩ : Frame).channels = 3
      ∧ display_classes_image baseGui ⟨8, 6, 3, ColorFmt.bgr⟩ = some { baseGui with
          class_image_view := {
            size := ⟨6, 8⟩,
            content := PanelContent.pixmap ⟨8, 6, 3, ColorFmt.rgb⟩ } }) := by
  refine ⟨⟨rfl, ?_⟩, ⟨rfl, ?_⟩⟩
  · exact (C7_display_conversion_and_scaling baseGui ⟨8, 6, 1, ColorFmt.gray⟩).1 rfl
  · exact ((C7_display_conversion_and_scaling baseGui ⟨8, 6, 3, ColorFmt.bgr⟩).2 rfl).2.2.2.2.2

/-- C8: every Parameter Synchronizer handler is idempotent — for a fixed set
of control inputs, running a handler twice in succession leaves the
configuration and all UI controls (including the hysteresis correction echo
and the 360-degree control reset) in the same state as running it once. -/
theorem C8_synchronizer_idempotent (s : GuiState) :
    update_image_scaling (update_image_scaling s) = update_image_scaling s
    ∧ update_preprocessing_params (update_preprocessing_params s)
        = update_preprocessing_params s
    ∧ update_histeresis_params (update_histeresis_params s) = update_histeresis_params s
    ∧ update_dilation_steps (update_dilation_steps s) = update_dilation_steps s
    ∧ update_image_distortion (update_image_distortion s) = update_image_distortion s
    ∧ update_edge_params (update_edge_params s) = update_edge_params s
    ∧ update_clustering_params (update_clustering_params s) = update_clustering_params s
    ∧ update_cluster_cleaning_params (update_cluster_cleaning_params s)
        = update_cluster_cleaning_params s
    ∧ update_rectangle_detection_params (update_rectangle_detection_params s)
        = update_rectangle_detection_params s := by
  refine ⟨rfl, ?_, ?_, rfl, rfl, rfl, ?_, rfl, rfl⟩
  · by_cases h : s.angle_value = 360
    · simp [update_preprocessing_params, update_preprocessing_core,
        update_image_scaling, update_image_angle_write, update_blur_value,
        update_temperature_value, h]
    · simp [update_preprocessing_params, update_preprocessing_core,
        update_image_scaling, update_image_angle_write, update_blur_value,
        update_temperature_value, h]
  · by_cases h : s.max_histeresis_value ≤ s.min_histeresis_value
    · have h1 : ¬(s.min_histeresis_value + 1 = s.max_histeresis_value) := by
        intro hc
        have : s.min_histeresis_value + 1 ≤ s.min_histeresis_value := hc ▸ h
        linarith
      have h2 : ¬(s.min_histeresis_value + 1 ≤ s.min_histeresis_value) := by linarith
      simp [update_histeresis_params, update_histeresis_core, h, h1, h2]
    · simp [update_histeresis_params, update_histeresis_core, h]
  · rcases hknn : s.knn_checked <;> rcases hgmm : s.gmm_checked <;>
      simp [update_clustering_params, hknn, hgmm]

/-- A sequence of load operations (picker result and frame count per load),
with no intervening reset. -/
def load_sequence (inps : List (String × Nat)) (s : GuiState) : GuiState :=
  inps.foldl (fun st pk => load_video_from_file pk.1 pk.2 st) s

/-- One successful load adds exactly one progress-signal connection. -/
theorem load_adds_one_connection (p : String) (k : Nat) (s : GuiState) (hp : p ≠ "") :
    (load_video_from_file p k s).thread.iteration_connections
      = s.thread.iteration_connections + 1 := by
  simp [load_video_from_file, thread_load_video, hp]

/-- A sequence of successful loads adds one connection per load. -/
theorem load_sequence_connections (inps : List (String × Nat)) :
    ∀ s : GuiState, (∀ pk ∈ inps, pk.1 ≠ "") →
      (load_sequence inps s).thread.iteration_connections
        = s.thread.iteration_connections + inps.length := by
  induction inps with
  | nil => intro s _; simp [load_sequence]
  | cons pk rest ih =>
      intro s hne
      have h1 := load_adds_one_connection pk.1 pk.2 s (hne pk (by simp))
      have h2 := ih (load_video_from_file pk.1 pk.2 s)
        (fun q hq => hne q (by simp [hq]))
      simp only [load_sequence, List.foldl_cons] at h2 ⊢
      rw [h2, h1, List.length_cons]
      ring

/-- Repeatedly applying the progress handler sets the indicator to the
delivered index as soon as it runs at least once. -/
theorem applyHandlerTimes_progress (idx : Int) :
    ∀ (n : Nat) (s : GuiState), n ≠ 0 →
      (applyHandlerTimes (update_global_progress_bar idx) n s).global_progress_bar_value
        = idx := by
  intro n
  induction n with
  | zero => intro s h; exact absurd rfl h
  | succ m ih =>
      intro s _
      by_cases hm : m = 0
      · subst hm; simp [applyHandlerTimes, update_global_progress_bar]
      · simpa [applyHandlerTimes] using ih (update_global_progress_bar idx s) hm

/-- C9: starting from a dialog whose progress signal has no connection yet,
a sequence of n successful file loads (non-empty picker results) with no
intervening reset leaves the progress handler connected n times, so a
progress emission invokes the handler n times (and, when n is positive,
leaves the indicator at the delivered index). -/
theorem C9_progress_connection_accumulates (s : GuiState) (inps : List (String × Nat))
    (idx : Int) (hs : s.thread.iteration_connections = 0)
    (hne : ∀ pk ∈ inps, pk.1 ≠ "") :
    (load_sequence inps s).thread.iteration_connections = inps.length
    ∧ (emit_iteration_signal idx (load_sequence inps s)).2 = inps.length
    ∧ (inps ≠ [] →
        (emit_iteration_signal idx (load_sequence inps s)).1.global_progress_bar_value
          = idx) := by
  have hc := load_sequence_connections inps s hne
  rw [hs, Nat.zero_add] at hc
  refine ⟨hc, ?_, ?_⟩
  · simp [emit_iteration_signal, hc]
  · intro hnil
    have hlen : inps.length ≠ 0 := by
      intro h0
      exact hnil (List.length_eq_zero.mp h0)
    simp only [emit_iteration_signal]
    rw [hc]
    exact applyHandlerTimes_progress idx inps.length _ hlen

/-- C9 witness: two successful loads from a fresh dialog leave the handler
connected twice; a progress emission then runs it twice and sets the
indicator to the delivered index. -/
theorem C9_progress_connection_accumulates_witness :
    baseGui.thread.iteration_connections = 0
    ∧ (load_sequence [("a.mp4", 5), ("b.mp4", 7)] baseGui).thread.iteration_connections = 2
    ∧ (emit_iteration_signal 3 (load_sequence [("a.mp4", 5), ("b.mp4", 7)] baseGui)).2 = 2
    ∧ (emit_iteration_signal 3 (load_sequence [("a.mp4", 5), ("b.mp4", 7)] baseGui)
        ).1.global_progress_bar_value = 3 := by
  have h := C9_progress_connection_accumulates baseGui [("a.mp4", 5), ("b.mp4", 7)] 3
    rfl (by intro pk hpk; fin_cases hpk <;> simp)
  exact ⟨rfl, h.1, h.2.1, h.2.2 (by simp)⟩

/-- C10: binding a webcam device index immediately starts the run: the run
is marked not stoppable, the window is retitled, the worker is bound to the
live source and started at once with the play button disabled, the pause
button enabled, the scaling slider disabled, and the stop button left as it
was — the source never rests in a loaded-but-not-running state. -/
theorem C10_webcam_autostart (port : Int) (s : GuiState) :
    (set_webcam_port port s).is_stoppable = false
    ∧ (set_webcam_port port s).window_title = "Thermography: Webcam"
    ∧ (set_webcam_port port s).webcam_port = some port
    ∧ (set_webcam_port port s).thread.source = VideoSource.webcam port
    ∧ (set_webcam_port port s).thread.running = true
    ∧ (set_webcam_port port s).thread.is_paused = false
    ∧ (set_webcam_port port s).play_video_button_enabled = false
    ∧ (set_webcam_port port s).pause_video_button_enabled = true
    ∧ (set_webcam_port port s).image_scaling_slider_enabled = false
    ∧ (set_webcam_port port s).stop_video_button_enabled = s.stop_video_button_enabled := by
  simp [set_webcam_port, play_all_frames, update_image_scaling, thread_use_webcam]
